import Mathlib

/-!
Verification of `caffe2/core/c10_operator.h`: the calling-convention bridge
between caffe2 legacy operators and the c10 dispatcher.

The embedding models the data the bridge manipulates (type-erased values,
tensors, schemas) and the three components: the schema builder
`make_function_schema_for_c10`, the invocation adapter
`_call_caffe2_op_from_c10`, and the templated entry point
`call_caffe2_op_from_c10`.
-/

namespace Caffe2

/-- A tensor is an opaque buffer handle.  A default-constructed `at::Tensor`
(as produced by `std::vector<at::Tensor>::resize`) is undefined/empty, which
we model with the `undefined` constructor; any real buffer is `defined` with
an identifier. -/
inductive Tensor
  | undefined
  | defined (id : Nat)
deriving DecidableEq, Repr

/-- The fragment of the c10 type language the bridge mentions:
`TensorType`, `IntType`, `FloatType`, `ListType` and `OptionalType`. -/
inductive CType
  | tensorT
  | intT
  | floatT
  | listT (elem : CType)
  | optionalT (elem : CType)
deriving DecidableEq, Repr

/-- Type-erased runtime values (`c10::IValue`), restricted to the variants
the bridge inspects: `None`, tensors, integers and tensor lists. -/
inductive IValue
  | none
  | tensor (t : Tensor)
  | int (i : Int)
  | tensorList (ts : List Tensor)
deriving DecidableEq, Repr

/-- The test `IValue::isNone()`. -/
def IValue.isNone : IValue → Bool
  | .none => true
  | _ => false

/-- The test `IValue::isTensorList()`. -/
def IValue.isTensorList : IValue → Bool
  | .tensorList _ => true
  | _ => false

/-- The extraction `std::move(v).toTensorList()).elements()`; only ever
evaluated after `isTensorList` holds, so the other branches are junk. -/
def IValue.toTensorListElements : IValue → List Tensor
  | .tensorList ts => ts
  | _ => []

/-- A `c10::Argument`: a named, typed parameter descriptor.  The third and
fourth constructor arguments of `c10::Argument` are the optional list
length `N` and the default value; `c10::Argument("x")` defaults the type to
tensor, `N` to nullopt and the default value to `IValue()`. -/
structure Argument where
  name : String
  type : CType := CType.tensorT
  N : Option Nat := Option.none
  default_value : IValue := IValue.none
deriving DecidableEq, Repr

instance : Inhabited Argument := ⟨{ name := "" }⟩

/-- A `c10::FunctionSchema`: operator name, overload name, argument list and
return list. -/
structure FunctionSchema where
  name : String
  overload_name : String
  arguments : List Argument
  returns : List Argument
deriving DecidableEq, Repr

/-- The reserved name of the synthetic trailing parameter. -/
def PREALLOCATED_OUTPUT_ARGNAME : String := "_caffe2_preallocated_outputs"

/-- The type of the synthetic trailing parameter:
`OptionalType::create(ListType::ofTensors())`. -/
def optListTensorType : CType := CType.optionalT (CType.listT CType.tensorT)

/-- The synthetic argument the schema builder appends:
`Argument(PREALLOCATED_OUTPUT_ARGNAME, OptionalType::create(ListType::ofTensors()), nullopt, IValue())`. -/
def preallocatedOutputsArg : Argument :=
  { name := PREALLOCATED_OUTPUT_ARGNAME
    type := optListTensorType
    N := Option.none
    default_value := IValue.none }

/-- The schema builder `make_function_schema_for_c10`: moves the caller's
input list, appends the synthetic argument, and pairs it with the unmodified
output list under the name `"_caffe2::" + OperatorName` and an empty
overload name. -/
def make_function_schema_for_c10 (OperatorName : String)
    (inputs outputs : List Argument) : FunctionSchema :=
  let actual_inputs := inputs ++ [preallocatedOutputsArg]
  { name := "_caffe2::" ++ OperatorName
    overload_name := ""
    arguments := actual_inputs
    returns := outputs }

/-- Modelled from the spec: the subtype test `Type::isSubtypeOf` lives in the
type-registry system, which is an external collaborator not under src/.  The
spec's precondition reads "its last parameter's type must be 'optional list
of buffer handles'", so the check accepts exactly the type
`Optional[List[Tensor]]`. -/
def isSubtypeOfOptListTensor (t : CType) : Bool :=
  t == optListTensorType

/-- Modelled from the spec: `torch::jit::pop(*stack)` of the consumed call
stack interface removes and returns the top value.  The stack is a
`std::vector<IValue>` whose top is the back, modelled here as the last list
element.  Popping an empty stack is outside the interface's contract; here
it yields `IValue.none` and leaves the stack empty. -/
def pop1 (s : List IValue) : IValue × List IValue :=
  (s.getLastD IValue.none, s.dropLast)

/-- Modelled from the spec: `torch::jit::pop(*stack, n)` removes the top `n`
values and returns them in stack order (deepest first, i.e. declaration
order). -/
def popN (s : List IValue) (n : Nat) : List IValue × List IValue :=
  (s.drop (s.length - n), s.take (s.length - n))

/-- Modelled from the spec: `torch::jit::push(*stack, v)` appends a value on
top of the stack. -/
def push1 (s : List IValue) (v : IValue) : List IValue := s ++ [v]

/-- The output-pushing loop of the adapter:
`for (auto&& output : std::move(outputs)) push(*stack, IValue(output))`. -/
def pushOutputs (s : List IValue) (ts : List Tensor) : List IValue :=
  ts.foldl (fun acc t => push1 acc (IValue.tensor t)) s

/-- The `AT_ASSERT` at the head of the adapter:
`schema.arguments().size() != 0 && schema.arguments().back().type()->isSubtypeOf(OptionalType::create(ListType::ofTensors()))`. -/
def schemaAssertOk (schema : FunctionSchema) : Bool :=
  !schema.arguments.isEmpty &&
    isSubtypeOfOptListTensor ((schema.arguments.getLastD default).type)

/-- The output-buffer resolution of the adapter (its if/else over the popped
synthetic value): on `None`, `outputs.resize(num_outputs)` turns the empty
vector into `num_outputs` default-constructed (undefined) tensors; on a
tensor list, `AT_ASSERT(preallocated_outputs.isTensorList())` passes and the
list's elements are taken by ownership, with no check of their number;
otherwise the assertion fires, signalled here by `Option.none`. -/
def resolvePreallocated (preallocated_outputs : IValue) (num_outputs : Nat) :
    Option (List Tensor) :=
  if preallocated_outputs.isNone then
    some (List.replicate num_outputs Tensor.undefined)
  else if preallocated_outputs.isTensorList then
    some preallocated_outputs.toTensorListElements
  else
    Option.none

/-- The outcome of one adapter call, over an opaque legacy-operator failure
type `ε`.  `ok` carries the final stack; `assertFailed` records the stack as
it stood when an `AT_ASSERT` fired; `opFailed` records the legacy operator's
failure signal together with the stack as it stood when `Run` failed. -/
inductive AdapterResult (ε : Type)
  | ok (stack : List IValue)
  | assertFailed (stackAtFailure : List IValue)
  | opFailed (err : ε) (stackAtFailure : List IValue)
deriving DecidableEq, Repr

/-- The invocation adapter `_call_caffe2_op_from_c10`.  It asserts the schema
shape, pops the synthetic preallocated-outputs value, resolves the output
buffer set (fresh undefined tensors on `None`, the list's elements on a
tensor list, assertion failure otherwise), pops the `num_inputs` input
values, invokes `call_op`, and pushes each returned tensor. -/
def callCaffe2OpFromC10Impl {ε : Type} (stack : List IValue)
    (schema : FunctionSchema)
    (call_op : FunctionSchema → List IValue → List Tensor →
      Except ε (List Tensor)) :
    AdapterResult ε :=
  if schemaAssertOk schema then
    let popped := pop1 stack
    let preallocated_outputs := popped.1
    let stack1 := popped.2
    let num_outputs := schema.returns.length
    let num_inputs := schema.arguments.length - 1
    match resolvePreallocated preallocated_outputs num_outputs with
    | Option.none => AdapterResult.assertFailed stack1
    | some outputs =>
      let poppedInputs := popN stack1 num_inputs
      let inputs := poppedInputs.1
      let stack2 := poppedInputs.2
      match call_op schema inputs outputs with
      | Except.error e => AdapterResult.opFailed e stack2
      | Except.ok outs => AdapterResult.ok (pushOutputs stack2 outs)
  else
    AdapterResult.assertFailed stack

/-- Modelled from the spec: a legacy operator instance owns its schema, its
input values and its output buffer set for the duration of one call.  This
is the state the `Caffe2Operator op(schema, std::move(inputs), std::move(outputs))`
constructor establishes. -/
structure Caffe2OperatorState where
  schema : FunctionSchema
  inputs : List IValue
  outputs : List Tensor

/-- The move-extraction accessor `std::move(op).move_newstyle_outputs()`. -/
def Caffe2OperatorState.move_newstyle_outputs (st : Caffe2OperatorState) :
    List Tensor :=
  st.outputs

/-- Modelled from the spec: a legacy operator type is characterised by its
`Run` behaviour, a synchronous transformation of the instance state that
either completes or raises an opaque failure signal of type `ε`. -/
structure Caffe2OperatorClass (ε : Type) where
  runOp : Caffe2OperatorState → Except ε Caffe2OperatorState

/-- The generic invoker `_call_caffe2_op<Caffe2Operator>`: construct the
instance from (schema, inputs, outputs), run it, and move-extract its final
output list. -/
def callCaffe2Op {ε : Type} (C : Caffe2OperatorClass ε)
    (schema : FunctionSchema) (inputs : List IValue)
    (outputs : List Tensor) : Except ε (List Tensor) :=
  let op : Caffe2OperatorState := ⟨schema, inputs, outputs⟩
  match C.runOp op with
  | Except.error e => Except.error e
  | Except.ok op2 => Except.ok op2.move_newstyle_outputs

/-- A `c10::OperatorHandle` as the adapter consumes it: a handle exposing a
schema. -/
structure OperatorHandle where
  schema : FunctionSchema

/-- The templated entry point `call_caffe2_op_from_c10<OpHandle, Caffe2Operator>`:
delegates to the shared non-generic implementation with the handle's schema
and the operator class's generic invoker.  The `cache` parameter (of an
arbitrary type `κ`, matching the opaque `c10::KernelCache*`) is accepted and
ignored. -/
def call_caffe2_op_from_c10 {ε κ : Type} (OpHandle : Unit → OperatorHandle)
    (C : Caffe2OperatorClass ε) (stack : List IValue) (cache : κ) :
    AdapterResult ε :=
  callCaffe2OpFromC10Impl stack (OpHandle ()).schema (callCaffe2Op C)

/-- The initial-segment (prefix) order on stacks: `a` is what remains of `b`
after only removals from the top. -/
def isInitSegment (a b : List IValue) : Prop := ∃ t, b = a ++ t

/-! ### Helper lemmas -/

theorem pop1_concat (l : List IValue) (v : IValue) : pop1 (l ++ [v]) = (v, l) := by
  simp [pop1, List.getLastD_concat]

theorem popN_append (l m : List IValue) : popN (l ++ m) m.length = (m, l) := by
  have h : (l ++ m).length - m.length = l.length := by
    simp [List.length_append]
  simp only [popN, h]
  rw [List.drop_left, List.take_left]

theorem pushOutputs_eq (s : List IValue) (ts : List Tensor) :
    pushOutputs s ts = s ++ ts.map IValue.tensor := by
  induction ts generalizing s with
  | nil => simp [pushOutputs]
  | cons t ts ih =>
      show pushOutputs (push1 s (IValue.tensor t)) ts = _
      rw [ih]
      simp [push1]

theorem isInitSegment_refl (s : List IValue) : isInitSegment s s := ⟨[], by simp⟩

theorem isInitSegment_take (s : List IValue) (n : Nat) :
    isInitSegment (s.take n) s := ⟨s.drop n, (List.take_append_drop n s).symm⟩

theorem isInitSegment_dropLast (s : List IValue) :
    isInitSegment s.dropLast s := by
  rw [List.dropLast_eq_take]
  exact isInitSegment_take s (s.length - 1)

theorem isInitSegment_trans {a b c : List IValue}
    (h1 : isInitSegment a b) (h2 : isInitSegment b c) : isInitSegment a c := by
  obtain ⟨t1, rfl⟩ := h1
  obtain ⟨t2, rfl⟩ := h2
  exact ⟨t1 ++ t2, by simp⟩

/-- The built schema always passes the adapter's head assertion. -/
theorem schemaAssertOk_make (OperatorName : String)
    (inputs outputs : List Argument) :
    schemaAssertOk (make_function_schema_for_c10 OperatorName inputs outputs) = true := by
  simp [schemaAssertOk, make_function_schema_for_c10, isSubtypeOfOptListTensor,
    List.getLastD_concat, preallocatedOutputsArg]

/-- Characterisation of a well-formed adapter call: on a stack holding the
declared argument values (inputs in declaration order, synthetic value on
top), a schema passing the head assertion, and a synthetic value that
resolves, the adapter applies `call_op` to exactly the input values and the
resolved output buffers, and either propagates its error over the remaining
stack or pushes exactly its returned tensors. -/
theorem adapter_char {ε : Type} (rest inputs : List IValue) (synth : IValue)
    (schema : FunctionSchema)
    (call_op : FunctionSchema → List IValue → List Tensor → Except ε (List Tensor))
    (bufs : List Tensor)
    (hassert : schemaAssertOk schema = true)
    (hlen : schema.arguments.length = inputs.length + 1)
    (hres : resolvePreallocated synth schema.returns.length = some bufs) :
    callCaffe2OpFromC10Impl (rest ++ (inputs ++ [synth])) schema call_op =
      match call_op schema inputs bufs with
      | Except.error e => AdapterResult.opFailed e rest
      | Except.ok outs => AdapterResult.ok (rest ++ outs.map IValue.tensor) := by
  have h1 : rest ++ (inputs ++ [synth]) = (rest ++ inputs) ++ [synth] :=
    (List.append_assoc rest inputs [synth]).symm
  have hni : schema.arguments.length - 1 = inputs.length := by omega
  have hp : pop1 (rest ++ (inputs ++ [synth])) = (synth, rest ++ inputs) := by
    rw [h1]; exact pop1_concat _ _
  cases hcall : call_op schema inputs bufs with
  | error e =>
      simp [callCaffe2OpFromC10Impl, hassert, hp, hni, hres, popN_append, hcall]
  | ok outs =>
      simp [callCaffe2OpFromC10Impl, hassert, hp, hni, hres, popN_append, hcall,
        pushOutputs_eq]

/-! ### Claim theorems -/

/-- C1: for every adapter call that passes its assertions, on a stack holding
k input values and the synthetic value on top of some prior contents, with a
schema declaring k+1 parameters and m results and a legacy invocation
yielding m tensors, the adapter removes exactly the top k+1 values (the
synthetic value first, then the k inputs) and pushes exactly the m result
tensors in result order; hence the final height plus (k+1) equals the
initial height plus m, i.e. the net change is m - k - 1. -/
theorem C1_adapter_pops_and_pushes {ε : Type} (rest inputs : List IValue)
    (synth : IValue) (schema : FunctionSchema)
    (call_op : FunctionSchema → List IValue → List Tensor → Except ε (List Tensor))
    (bufs outs : List Tensor)
    (hassert : schemaAssertOk schema = true)
    (hlen : schema.arguments.length = inputs.length + 1)
    (hres : resolvePreallocated synth schema.returns.length = some bufs)
    (hcall : call_op schema inputs bufs = Except.ok outs)
    (houts : outs.length = schema.returns.length) :
    callCaffe2OpFromC10Impl (rest ++ (inputs ++ [synth])) schema call_op =
      AdapterResult.ok (rest ++ outs.map IValue.tensor) ∧
    (rest ++ outs.map IValue.tensor).length + (inputs.length + 1) =
      (rest ++ (inputs ++ [synth])).length + schema.returns.length := by
  constructor
  · rw [adapter_char rest inputs synth schema call_op bufs hassert hlen hres,
      hcall]
  · simp [houts]
    omega

/-- Closed instance of C1: two inputs, one output, absent preallocated
outputs, one value below the call frame. -/
theorem C1_witness :
    callCaffe2OpFromC10Impl
        ([IValue.int 7] ++
          ([IValue.tensor (Tensor.defined 1), IValue.int 5] ++ [IValue.none]))
        (make_function_schema_for_c10 "MyOp"
          [{ name := "A" }, { name := "B", type := CType.intT }]
          [{ name := "C" }])
        (fun _ _ _ => (Except.ok [Tensor.defined 2] : Except Unit (List Tensor))) =
      AdapterResult.ok [IValue.int 7, IValue.tensor (Tensor.defined 2)] :=
  (C1_adapter_pops_and_pushes [IValue.int 7]
    [IValue.tensor (Tensor.defined 1), IValue.int 5] IValue.none
    (make_function_schema_for_c10 "MyOp"
      [{ name := "A" }, { name := "B", type := CType.intT }] [{ name := "C" }])
    (fun _ _ _ => Except.ok [Tensor.defined 2])
    [Tensor.undefined] [Tensor.defined 2] rfl rfl rfl rfl rfl).1

/-- C2: for every operator name and every pair of input/output descriptor
lists, the schema builder returns a signature whose parameter list is the
input list with exactly one appended synthetic parameter — named by the
reserved constant `"_caffe2_preallocated_outputs"`, typed
`Optional[List[Tensor]]`, with no list length and the absent (`IValue()`)
default — whose result list is the output list unmodified, and whose name is
`"_caffe2::"` joined with the given name. -/
theorem C2_schema_builder (OperatorName : String)
    (inputs outputs : List Argument) :
    (make_function_schema_for_c10 OperatorName inputs outputs).arguments =
      inputs ++ [{ name := PREALLOCATED_OUTPUT_ARGNAME,
                   type := CType.optionalT (CType.listT CType.tensorT),
                   N := Option.none,
                   default_value := IValue.none }] ∧
    PREALLOCATED_OUTPUT_ARGNAME = "_caffe2_preallocated_outputs" ∧
    (make_function_schema_for_c10 OperatorName inputs outputs).returns =
      outputs ∧
    (make_function_schema_for_c10 OperatorName inputs outputs).name =
      "_caffe2::" ++ OperatorName :=
  ⟨rfl, rfl, rfl, rfl⟩

/-- C3: for every signature declaring zero parameters or whose last
parameter's type is not `Optional[List[Tensor]]`, the adapter fails its head
assertion on any stack and any invoker, and the stack at the failure is the
unmutated entering stack. -/
theorem C3_misregistration_assert {ε : Type} (stack : List IValue)
    (schema : FunctionSchema)
    (call_op : FunctionSchema → List IValue → List Tensor → Except ε (List Tensor))
    (hbad : schema.arguments = [] ∨
      ¬ (schema.arguments.getLastD default).type = optListTensorType) :
    callCaffe2OpFromC10Impl stack schema call_op =
      AdapterResult.assertFailed stack := by
  have hfalse : schemaAssertOk schema = false := by
    rcases hbad with h | h
    · simp [schemaAssertOk, h]
    · have h2 : isSubtypeOfOptListTensor
          ((schema.arguments.getLastD default).type) = false := by
        rw [List.getLastD_eq_getLast?] at h
        simp [isSubtypeOfOptListTensor, h]
      simp only [schemaAssertOk, h2, Bool.and_false]
  simp [callCaffe2OpFromC10Impl, hfalse]

/-- Closed instance of C3: a signature built without the synthetic trailing
parameter (its only parameter is a plain tensor) fails the assertion with
the stack untouched. -/
theorem C3_witness :
    callCaffe2OpFromC10Impl [IValue.int 1]
        { name := "bad", overload_name := "", arguments := [{ name := "A" }],
          returns := [] }
        (fun _ _ _ => (Except.ok [] : Except Unit (List Tensor))) =
      AdapterResult.assertFailed [IValue.int 1] :=
  C3_misregistration_assert [IValue.int 1]
    { name := "bad", overload_name := "", arguments := [{ name := "A" }],
      returns := [] }
    (fun _ _ _ => Except.ok []) (Or.inr (by decide))

/-- C4: the adapter's output-buffer resolution of the popped synthetic
value: an absent (`None`) value yields a freshly created list of exactly
`num_outputs` undefined placeholder tensors, and a tensor-list value yields
exactly its elements, for every list `ts` — in particular with no check that
`ts.length` equals `num_outputs`. -/
theorem C4_resolve_output_buffers (m : Nat) (ts : List Tensor) :
    resolvePreallocated IValue.none m =
      some (List.replicate m Tensor.undefined) ∧
    resolvePreallocated (IValue.tensorList ts) m = some ts :=
  ⟨rfl, rfl⟩

/-- C5: for every adapter call whose schema passes the head assertion but
whose popped synthetic value is present (not `None`) and not a tensor list,
the call fails the type-mismatch assertion for every invoker `call_op`
(the result does not mention `call_op`: the legacy operator is never
invoked), and the stack at the failure holds no pushed output — it is the
entering stack minus the one popped value. -/
theorem C5_type_mismatch_assert {ε : Type} (below : List IValue) (v : IValue)
    (schema : FunctionSchema)
    (call_op : FunctionSchema → List IValue → List Tensor → Except ε (List Tensor))
    (hassert : schemaAssertOk schema = true)
    (hnone : v.isNone = false) (hlist : v.isTensorList = false) :
    callCaffe2OpFromC10Impl (below ++ [v]) schema call_op =
      AdapterResult.assertFailed below := by
  simp [callCaffe2OpFromC10Impl, hassert, pop1_concat, resolvePreallocated,
    hnone, hlist]

/-- Closed instance of C5: an integer in the synthetic slot fails the
assertion before any invocation. -/
theorem C5_witness :
    callCaffe2OpFromC10Impl ([] ++ [IValue.int 3])
        (make_function_schema_for_c10 "MyOp2" [] [])
        (fun _ _ _ => (Except.ok [] : Except Unit (List Tensor))) =
      AdapterResult.assertFailed [] :=
  C5_type_mismatch_assert [] (IValue.int 3)
    (make_function_schema_for_c10 "MyOp2" [] [])
    (fun _ _ _ => Except.ok []) rfl rfl rfl

/-- C6: for every valid call whose caller supplies a preallocated output
list `ts` of length exactly the declared result count, the legacy operator
instance is constructed with exactly `ts`, in order, as its initial output
set (the state handed to `Run` is literally `⟨schema, inputs, ts⟩`); the
operator is then free to keep or replace those buffers, and its final output
list is what gets pushed. -/
theorem C6_preallocated_passthrough {ε : Type} (rest inputs : List IValue)
    (ts : List Tensor) (schema : FunctionSchema) (C : Caffe2OperatorClass ε)
    (hassert : schemaAssertOk schema = true)
    (hlen : schema.arguments.length = inputs.length + 1)
    (hts : ts.length = schema.returns.length) :
    callCaffe2OpFromC10Impl (rest ++ (inputs ++ [IValue.tensorList ts]))
        schema (callCaffe2Op C) =
      match C.runOp ⟨schema, inputs, ts⟩ with
      | Except.error e => AdapterResult.opFailed e rest
      | Except.ok op2 =>
          AdapterResult.ok (rest ++ op2.move_newstyle_outputs.map IValue.tensor) := by
  rw [adapter_char rest inputs (IValue.tensorList ts) schema (callCaffe2Op C)
    ts hassert hlen rfl]
  cases h : C.runOp ⟨schema, inputs, ts⟩ with
  | error e => simp [callCaffe2Op, Caffe2OperatorState.move_newstyle_outputs, h]
  | ok op2 => simp [callCaffe2Op, Caffe2OperatorState.move_newstyle_outputs, h]

/-- Closed instance of C6: a one-input, one-output call with preallocated
output `Tensor.defined 9` and an operator whose run keeps its state; the
preallocated buffer comes back on the stack. -/
theorem C6_witness :
    callCaffe2OpFromC10Impl
        ([] ++ ([IValue.tensor (Tensor.defined 1)] ++
          [IValue.tensorList [Tensor.defined 9]]))
        (make_function_schema_for_c10 "MyOp3" [{ name := "A" }] [{ name := "C" }])
        (callCaffe2Op (⟨fun st => Except.ok st⟩ : Caffe2OperatorClass Unit)) =
      AdapterResult.ok [IValue.tensor (Tensor.defined 9)] :=
  C6_preallocated_passthrough [] [IValue.tensor (Tensor.defined 1)]
    [Tensor.defined 9]
    (make_function_schema_for_c10 "MyOp3" [{ name := "A" }] [{ name := "C" }])
    ⟨fun st => Except.ok st⟩ rfl rfl rfl

/-- C8: in every schema the builder produces, the synthetic parameter is
present and is the last parameter; and in every adapter call on such a
schema, the invoker receives exactly the `num_inputs = parameter count - 1`
non-synthetic argument values, in declaration order — the synthetic value is
popped separately and never appears in the input sequence. -/
theorem C8_synthetic_last_and_shielded {ε : Type} (OperatorName : String)
    (ins outs : List Argument) (rest vals : List IValue) (synth : IValue)
    (call_op : FunctionSchema → List IValue → List Tensor → Except ε (List Tensor))
    (bufs : List Tensor)
    (hvals : vals.length = ins.length)
    (hres : resolvePreallocated synth
      (make_function_schema_for_c10 OperatorName ins outs).returns.length =
        some bufs) :
    (make_function_schema_for_c10 OperatorName ins outs).arguments =
      ins ++ [preallocatedOutputsArg] ∧
    (make_function_schema_for_c10 OperatorName ins outs).arguments.getLastD
      default = preallocatedOutputsArg ∧
    callCaffe2OpFromC10Impl (rest ++ (vals ++ [synth]))
        (make_function_schema_for_c10 OperatorName ins outs) call_op =
      match call_op (make_function_schema_for_c10 OperatorName ins outs)
          vals bufs with
      | Except.error e => AdapterResult.opFailed e rest
      | Except.ok os => AdapterResult.ok (rest ++ os.map IValue.tensor) := by
  refine ⟨rfl, ?_, ?_⟩
  · simp [make_function_schema_for_c10, List.getLastD_concat]
  · exact adapter_char rest vals synth _ call_op bufs
      (schemaAssertOk_make _ _ _)
      (by simp [make_function_schema_for_c10, hvals]) hres

/-- Closed instance of C8: the one declared input value is handed to the
invoker and the synthetic `None` is not. -/
theorem C8_witness :
    callCaffe2OpFromC10Impl ([] ++ ([IValue.int 11] ++ [IValue.none]))
        (make_function_schema_for_c10 "MyOp4" [{ name := "A" }] [{ name := "C" }])
        (fun _ _ _ => (Except.ok [Tensor.defined 3] : Except Unit (List Tensor))) =
      AdapterResult.ok [IValue.tensor (Tensor.defined 3)] :=
  (C8_synthetic_last_and_shielded "MyOp4" [{ name := "A" }] [{ name := "C" }]
    [] [IValue.int 11] IValue.none
    (fun _ _ _ => Except.ok [Tensor.defined 3])
    [Tensor.undefined] rfl rfl).2.2

/-- C7: every adapter call is atomic with respect to outputs.  Whatever the
stack, schema and invoker: if the call ends in an assertion failure or in a
legacy-run failure, the stack at that point is an initial segment of the
entering stack (only pops happened — no output value was pushed), and a run
failure carries exactly the error the invoker raised (no retry, no
recovery); if the call completes, the final stack is a remaining initial
segment plus all of the invoker's returned outputs. -/
theorem C7_atomic_failure_semantics {ε : Type} (stack : List IValue)
    (schema : FunctionSchema)
    (call_op : FunctionSchema → List IValue → List Tensor → Except ε (List Tensor)) :
    (∀ s, callCaffe2OpFromC10Impl stack schema call_op =
        AdapterResult.assertFailed s → isInitSegment s stack) ∧
    (∀ e s, callCaffe2OpFromC10Impl stack schema call_op =
        AdapterResult.opFailed e s →
      isInitSegment s stack ∧
      ∃ ins bufs, call_op schema ins bufs = Except.error e) ∧
    (∀ s, callCaffe2OpFromC10Impl stack schema call_op = AdapterResult.ok s →
      ∃ base outs ins bufs, isInitSegment base stack ∧
        call_op schema ins bufs = Except.ok outs ∧
        s = base ++ outs.map IValue.tensor) := by
  by_cases hA : schemaAssertOk schema = true
  · cases hres : resolvePreallocated (pop1 stack).1 schema.returns.length with
    | none =>
        have heq : callCaffe2OpFromC10Impl stack schema call_op =
            AdapterResult.assertFailed (pop1 stack).2 := by
          simp [callCaffe2OpFromC10Impl, hA, hres]
        refine ⟨?_, ?_, ?_⟩
        · intro s h
          rw [heq] at h
          injection h with h1
          subst h1
          exact isInitSegment_dropLast stack
        · intro e s h
          rw [heq] at h
          exact AdapterResult.noConfusion h
        · intro s h
          rw [heq] at h
          exact AdapterResult.noConfusion h
    | some bufs =>
        cases hcall : call_op schema
            (popN (pop1 stack).2 (schema.arguments.length - 1)).1 bufs with
        | error e0 =>
            have heq : callCaffe2OpFromC10Impl stack schema call_op =
                AdapterResult.opFailed e0
                  (popN (pop1 stack).2 (schema.arguments.length - 1)).2 := by
              simp [callCaffe2OpFromC10Impl, hA, hres, hcall]
            refine ⟨?_, ?_, ?_⟩
            · intro s h
              rw [heq] at h
              exact AdapterResult.noConfusion h
            · intro e s h
              rw [heq] at h
              injection h with h1 h2
              subst h1
              subst h2
              refine ⟨?_, _, bufs, hcall⟩
              exact isInitSegment_trans (isInitSegment_take _ _)
                (isInitSegment_dropLast stack)
            · intro s h
              rw [heq] at h
              exact AdapterResult.noConfusion h
        | ok outs =>
            have heq : callCaffe2OpFromC10Impl stack schema call_op =
                AdapterResult.ok
                  ((popN (pop1 stack).2 (schema.arguments.length - 1)).2 ++
                    outs.map IValue.tensor) := by
              simp [callCaffe2OpFromC10Impl, hA, hres, hcall, pushOutputs_eq]
            refine ⟨?_, ?_, ?_⟩
            · intro s h
              rw [heq] at h
              exact AdapterResult.noConfusion h
            · intro e s h
              rw [heq] at h
              exact AdapterResult.noConfusion h
            · intro s h
              rw [heq] at h
              injection h with h1
              subst h1
              refine ⟨_, outs, _, bufs, ?_, hcall, rfl⟩
              exact isInitSegment_trans (isInitSegment_take _ _)
                (isInitSegment_dropLast stack)
  · have heq : callCaffe2OpFromC10Impl stack schema call_op =
        AdapterResult.assertFailed stack := by
      simp [callCaffe2OpFromC10Impl, hA]
    refine ⟨?_, ?_, ?_⟩
    · intro s h
      rw [heq] at h
      injection h with h1
      subst h1
      exact isInitSegment_refl stack
    · intro e s h
      rw [heq] at h
      exact AdapterResult.noConfusion h
    · intro s h
      rw [heq] at h
      exact AdapterResult.noConfusion h

/-- Closed instance of C7: a one-input call whose legacy run fails with
error 42 leaves an un-pushed initial segment of the entering stack and
propagates exactly that error. -/
theorem C7_witness :
    isInitSegment [] [IValue.tensor (Tensor.defined 1), IValue.none] ∧
    ∃ (ins : List IValue) (bufs : List Tensor),
      (fun (_ : FunctionSchema) (_ : List IValue) (_ : List Tensor) =>
          (Except.error 42 : Except Nat (List Tensor)))
          (make_function_schema_for_c10 "MyOp6" [{ name := "A" }] []) ins bufs =
        Except.error 42 :=
  (C7_atomic_failure_semantics
    [IValue.tensor (Tensor.defined 1), IValue.none]
    (make_function_schema_for_c10 "MyOp6" [{ name := "A" }] [])
    (fun _ _ _ => Except.error 42)).2.1 42 [] rfl

/-- C9: for every operator handle and operator class, the registered
templated entry point on any stack and any cache value (of any cache type)
behaves exactly as the shared non-generic implementation applied to the
handle's schema and the class's generic invoker, and the cache argument has
no effect: any two cache values give equal results. -/
theorem C9_entry_point_refines {ε κ : Type} (OpHandle : Unit → OperatorHandle)
    (C : Caffe2OperatorClass ε) (stack : List IValue) (cache1 cache2 : κ) :
    call_caffe2_op_from_c10 OpHandle C stack cache1 =
      callCaffe2OpFromC10Impl stack (OpHandle ()).schema (callCaffe2Op C) ∧
    call_caffe2_op_from_c10 OpHandle C stack cache1 =
      call_caffe2_op_from_c10 OpHandle C stack cache2 :=
  ⟨rfl, rfl⟩

/-- C10: for every adapter call that passes both assertions, whatever list
of tensors the invoker returns is pushed in full — the pushed values are
exactly `outs.map IValue.tensor`, of length `outs.length`, with no
comparison against the schema's declared result count. -/
theorem C10_no_output_count_check {ε : Type} (rest inputs : List IValue)
    (synth : IValue) (schema : FunctionSchema)
    (call_op : FunctionSchema → List IValue → List Tensor → Except ε (List Tensor))
    (bufs outs : List Tensor)
    (hassert : schemaAssertOk schema = true)
    (hlen : schema.arguments.length = inputs.length + 1)
    (hres : resolvePreallocated synth schema.returns.length = some bufs)
    (hcall : call_op schema inputs bufs = Except.ok outs) :
    callCaffe2OpFromC10Impl (rest ++ (inputs ++ [synth])) schema call_op =
      AdapterResult.ok (rest ++ outs.map IValue.tensor) ∧
    (outs.map IValue.tensor).length = outs.length := by
  constructor
  · rw [adapter_char rest inputs synth schema call_op bufs hassert hlen hres,
      hcall]
  · simp

/-- Closed instance of C10: a schema declaring one result, an invoker
returning three tensors — all three are pushed. -/
theorem C10_witness :
    callCaffe2OpFromC10Impl ([] ++ ([] ++ [IValue.none]))
        (make_function_schema_for_c10 "MyOp5" [] [{ name := "C" }])
        (fun _ _ _ =>
          (Except.ok [Tensor.defined 1, Tensor.defined 2, Tensor.defined 3] :
            Except Unit (List Tensor))) =
      AdapterResult.ok [IValue.tensor (Tensor.defined 1),
        IValue.tensor (Tensor.defined 2), IValue.tensor (Tensor.defined 3)] :=
  (C10_no_output_count_check [] [] IValue.none
    (make_function_schema_for_c10 "MyOp5" [] [{ name := "C" }])
    (fun _ _ _ =>
      Except.ok [Tensor.defined 1, Tensor.defined 2, Tensor.defined 3])
    [Tensor.undefined] [Tensor.defined 1, Tensor.defined 2, Tensor.defined 3]
    rfl rfl rfl rfl).1

end Caffe2
